import Mathlib

/-!
Verification of the native-bridge contract declared by
`src-tauri/swift/app_detection_bridge.h` and `src-tauri/swift/vision_ocr_bridge.h`.

The two headers declare a C-compatible foreign-function boundary: three
app-detection queries (`get_frontmost_app_bundle_id`, `get_frontmost_app_name`,
`get_installed_applications_json`) with their release function `free_string`,
and one OCR query (`extract_text_from_image`) with its release function
`free_ocr_string`.  The headers carry the types and the ownership contract; the
Swift implementation bodies are not part of the provided sources, so the
behavioral side of the contract is modelled from the specification, as noted on
each definition.
-/

namespace Bridge

/-- The two provider families of the boundary: the app-detection bridge and the
OCR bridge.  Each family has its own release function (`free_string`,
`free_ocr_string`). -/
inductive Family
  | app
  | ocr
deriving DecidableEq, Repr

/-- The C `int` type used for `image_length` in
`extract_text_from_image(const unsigned char *image_data, int image_length)`:
a signed 32-bit integer, values in [-2^31, 2^31). -/
def CInt : Type := {n : ℤ // -2147483648 ≤ n ∧ n < 2147483648}

/-- Provider-specific failure causes that can occur behind the boundary
(permission denied, no frontmost app, corrupt image, unsupported format,
enumeration failure).  None of them crosses the boundary. -/
inductive ProviderFailure
  | permissionDenied
  | noFrontmostApp
  | corruptImage
  | unsupportedFormat
  | enumerationFailed
deriving DecidableEq, Repr

/-- Modelled from the spec: the error taxonomy at the boundary is binary, so
the bridge collapses every provider outcome to either a non-null owned result
(`some`) or null (`none`); no error code, message or exception crosses.  The
Swift bodies that perform this collapse are not in the provided sources. -/
def collapseOutcome {α : Type} : Except ProviderFailure α → Option α
  | Except.ok a => some a
  | Except.error _ => none

/-- An application as seen by the focus-detection provider: bundle identifier
and display name. -/
structure AppInfo where
  bundleId : String
  name : String
deriving DecidableEq, Repr

/-- An application record produced by the installed-applications enumeration
provider; system metadata may be missing, so both fields are optional at the
provider level. -/
structure SystemApp where
  bundleId : Option String
  name : Option String
deriving DecidableEq, Repr

/-- A minimal JSON value model, enough for the
`[{"bundle_id": "...", "name": "..."}, ...]` payload of
`get_installed_applications_json`. -/
inductive Json
  | str (s : String)
  | arr (elems : List Json)
  | obj (fields : List (String × Json))

/-- Modelled from the spec: the external state the opaque native providers
consult.  `focusedApp` is the application currently holding input focus, or
`none` when no such application can be determined (covering system surfaces
with no owning app and transient provider failure alike); `enumOutcome` is the
outcome of the best-effort installed-applications scan; `ocrEngine` is the
opaque OCR engine applied to the bytes of a valid image view.  The Swift
provider bodies are not in the provided sources. -/
structure World where
  focusedApp : Option AppInfo
  enumOutcome : Except ProviderFailure (List SystemApp)
  ocrEngine : List Nat → Except ProviderFailure String

/-- Modelled from the spec: the focus-detection provider's outcome, determined
by the external focus state; a transient inability to determine the app is
reported immediately as a failure, never retried. -/
def detectOutcome (w : World) : Except ProviderFailure AppInfo :=
  match w.focusedApp with
  | some a => Except.ok a
  | none => Except.error ProviderFailure.noFrontmostApp

/-- Modelled from the spec: `get_frontmost_app_bundle_id` returns the bundle
identifier of the application currently holding input focus, or null when it
cannot be determined.  The Swift body behind the header declaration is not in
the provided sources. -/
def get_frontmost_app_bundle_id (w : World) : Option String :=
  collapseOutcome (Except.map AppInfo.bundleId (detectOutcome w))

/-- Modelled from the spec: `get_frontmost_app_name` returns the display name
of the application currently holding input focus, or null.  The Swift body
behind the header declaration is not in the provided sources. -/
def get_frontmost_app_name (w : World) : Option String :=
  collapseOutcome (Except.map AppInfo.name (detectOutcome w))

/-- Modelled from the spec: serialization of one enumerated application into a
JSON record.  A record never carries a null bundle identifier, so applications
whose bundle identifier is missing or empty are omitted (best-effort
enumeration); the name field is present only when system metadata provides
it. -/
def recordJson (a : SystemApp) : Option Json :=
  match a.bundleId with
  | none => none
  | some b =>
    if b = "" then none
    else
      some (Json.obj (("bundle_id", Json.str b) ::
        (match a.name with
         | some n => [("name", Json.str n)]
         | none => [])))

/-- Modelled from the spec: the JSON array of application records returned by
the enumeration. -/
def serializeApps (apps : List SystemApp) : Json :=
  Json.arr (apps.filterMap recordJson)

/-- Modelled from the spec: `get_installed_applications_json` returns an owned
string holding a JSON array of application records, or null on failure.  The
Swift body behind the header declaration is not in the provided sources; the
returned JSON text is modelled by its parse tree. -/
def get_installed_applications_json (w : World) : Option Json :=
  collapseOutcome (Except.map serializeApps w.enumOutcome)

/-- Modelled from the spec: `extract_text_from_image` validates its arguments
(null pointer with nonzero length, negative length, and zero length are all
rejected by returning null, without reading the buffer) and otherwise hands the
`image_length`-byte view to the opaque OCR engine, collapsing its outcome to an
owned string or null.  The Swift body behind the header declaration is not in
the provided sources.  The C pointer is modelled as `none` (null) or
`some bytes` (the caller's buffer contents). -/
def extract_text_from_image (engine : List Nat → Except ProviderFailure String)
    (image_data : Option (List Nat)) (image_length : CInt) : Option String :=
  if image_length.val ≤ 0 then none
  else
    match image_data with
    | none => none
    | some bytes => collapseOutcome (engine (bytes.take image_length.val.toNat))

/-- An owned-string handle crossing the boundary: an allocation identity
tagged (in the model only — the C boundary carries no tag) with the family
that allocated it. -/
structure Handle where
  hid : Nat
  fam : Family
deriving DecidableEq, Repr

/-- The provider-side allocation state: a counter of allocations, the set of
currently live owned strings, and the buffers the provider retains references
to after returning. -/
structure BridgeState where
  nextId : Nat
  live : List Handle
  retained : List (List Nat)
deriving DecidableEq, Repr

/-- Modelled from the spec: allocation of a fresh owned string by a provider of
family `f`; this is the only side effect a query is allowed. -/
def allocString (s : BridgeState) (f : Family) : Handle × BridgeState :=
  (⟨s.nextId, f⟩, ⟨s.nextId + 1, ⟨s.nextId, f⟩ :: s.live, s.retained⟩)

/-- Modelled from the spec: `free_string` releases an owned string of the
app-detection family; passing null is a safe no-op.  The Swift body behind the
header declaration is not in the provided sources. -/
def free_string (s : BridgeState) (ptr : Option Handle) : BridgeState :=
  match ptr with
  | none => s
  | some h => ⟨s.nextId, s.live.erase h, s.retained⟩

/-- Modelled from the spec: `free_ocr_string` releases an owned string of the
OCR family; passing null is a safe no-op.  The Swift body behind the header
declaration is not in the provided sources. -/
def free_ocr_string (s : BridgeState) (ptr : Option Handle) : BridgeState :=
  match ptr with
  | none => s
  | some h => ⟨s.nextId, s.live.erase h, s.retained⟩

/-- Modelled from the spec: a full call to `get_frontmost_app_bundle_id`
including its effect on the external world and the allocation state.  Returns
the result, the world after the call, and the bridge state after the call. -/
def callFrontmostBundleId (w : World) (s : BridgeState) :
    Option String × World × BridgeState :=
  match get_frontmost_app_bundle_id w with
  | none => (none, w, s)
  | some str => (some str, w, (allocString s Family.app).2)

/-- The caller-owned memory holding the encoded image bytes passed to
`extract_text_from_image`. -/
structure CallerMemory where
  buffer : List Nat
deriving DecidableEq, Repr

/-- Modelled from the spec: a full call to `extract_text_from_image` including
its effect on the caller's buffer and on the provider's allocation and
retention state.  The buffer view is non-owning: the provider reads it for the
duration of the call only. -/
def callExtractText (w : World) (mem : CallerMemory) (ptrNull : Bool)
    (len : CInt) (s : BridgeState) :
    Option String × CallerMemory × BridgeState :=
  match extract_text_from_image w.ocrEngine
      (if ptrNull then none else some mem.buffer) len with
  | none => (none, mem, s)
  | some str => (some str, mem, (allocString s Family.ocr).2)

/-- The two release entry points of the boundary, as events in a caller
trace. -/
inductive ReleaseFn
  | freeString
  | freeOcrString
deriving DecidableEq, Repr

/-- The family a release function belongs to: `free_string` releases
app-detection strings, `free_ocr_string` releases OCR strings. -/
def ReleaseFn.family : ReleaseFn → Family
  | ReleaseFn.freeString => Family.app
  | ReleaseFn.freeOcrString => Family.ocr

/-- An event in the lifecycle of owned strings: a query returning a non-null
owned string (`create`), or the caller invoking a release function on a
handle. -/
inductive Event
  | create (h : Handle)
  | release (h : Handle) (rf : ReleaseFn)
deriving DecidableEq, Repr

/-- Whether an event is a release of handle `h` (by either release
function). -/
def isReleaseOf (h : Handle) : Event → Bool
  | Event.release h2 _ => h2 = h
  | Event.create _ => false

/-- How many times handle `h` is released in trace `t`. -/
def releasesOf (h : Handle) (t : List Event) : Nat :=
  t.countP (isReleaseOf h)

/-- Trace-local check of the ownership discipline for one event: a created
owned string is released exactly once and only by the release function of its
own family; a release only targets a string some query actually returned. -/
def eventOk (t : List Event) : Event → Bool
  | Event.create h =>
    releasesOf h t = 1 &&
      t.all (fun e =>
        match e with
        | Event.release h2 rf => h2 ≠ h ∨ rf.family = h.fam
        | Event.create _ => true)
  | Event.release h _ => decide (Event.create h ∈ t)

/-- Modelled from the spec: the ownership discipline the design imposes on
callers — every owned string returned non-null is destroyed by exactly one
call to the release function of its own family, and nothing else is ever
passed to a release function. -/
def lifecycleDiscipline (t : List Event) : Prop :=
  ∀ e ∈ t, eventOk t e = true

/-- No owned string is released twice in trace `t`. -/
def noDoubleRelease (t : List Event) : Prop :=
  ∀ h : Handle, releasesOf h t ≤ 1

/-- No owned string returned by a query is leaked in trace `t`: each one is
eventually released. -/
def noLeak (t : List Event) : Prop :=
  ∀ h : Handle, Event.create h ∈ t → 1 ≤ releasesOf h t

/-- The functions declared by `app_detection_bridge.h`, in declaration
order. -/
def appDetectionBridgeDecls : List String :=
  ["get_frontmost_app_bundle_id", "get_frontmost_app_name", "free_string",
   "get_installed_applications_json"]

/-- The functions declared by `vision_ocr_bridge.h`, in declaration order. -/
def visionOcrBridgeDecls : List String :=
  ["extract_text_from_image", "free_ocr_string"]

/-- The whole boundary surface declared by the two headers. -/
def boundaryDecls : List String :=
  appDetectionBridgeDecls ++ visionOcrBridgeDecls

/-- The four query operations of the boundary. -/
def queryDecls : List String :=
  ["get_frontmost_app_bundle_id", "get_frontmost_app_name",
   "get_installed_applications_json", "extract_text_from_image"]

/-- The two release operations of the boundary. -/
def releaseDecls : List String :=
  ["free_string", "free_ocr_string"]

/-- Example world used to instantiate theorems with hypotheses: the focused
application is `com.example.editor`, one installed application is enumerated,
and the OCR engine rejects every image. -/
def exampleWorld : World :=
  ⟨some ⟨"com.example.editor", "Editor"⟩,
   Except.ok [⟨some "com.example.editor", some "Editor"⟩],
   fun _ => Except.error ProviderFailure.corruptImage⟩

/-- A second example world: same focused application as `exampleWorld` but a
different enumeration outcome and a different OCR engine. -/
def exampleWorld2 : World :=
  ⟨some ⟨"com.example.editor", "Editor"⟩,
   Except.error ProviderFailure.permissionDenied,
   fun _ => Except.ok "hello"⟩

/-- Example handle for lifecycle traces: the first app-family owned string. -/
def exampleHandle : Handle :=
  ⟨0, Family.app⟩

/-- Example trace: one app-detection query returns an owned string, and the
caller releases it once with `free_string`. -/
def exampleTrace : List Event :=
  [Event.create exampleHandle,
   Event.release exampleHandle ReleaseFn.freeString]

/-- Claim C1: for every call to `extract_text_from_image`, if the image
pointer is null with a nonzero length, or the length is negative, or the
length is zero, the call returns null — for every OCR engine and every buffer
contents, so the pointer is never dereferenced, and the (total) function
cannot crash. -/
theorem extract_text_rejects_invalid_input
    (engine : List Nat → Except ProviderFailure String)
    (image_data : Option (List Nat)) (image_length : CInt)
    (h : (image_data = none ∧ image_length.val ≠ 0) ∨
      image_length.val < 0 ∨ image_length.val = 0) :
    extract_text_from_image engine image_data image_length = none := by
  unfold extract_text_from_image
  rcases h with ⟨hdata, _⟩ | hneg | hzero
  · subst hdata
    by_cases hl : image_length.val ≤ 0 <;> simp [hl]
  · simp [le_of_lt hneg]
  · simp [le_of_eq hzero]

/-- Witness for C1: a concrete invalid call — non-null 3-byte buffer, length
zero, an engine that would succeed — returns null. -/
theorem extract_text_rejects_invalid_input_witness :
    extract_text_from_image (fun _ => Except.ok "hello")
      (some [1, 2, 3]) ⟨0, by decide⟩ = none :=
  extract_text_rejects_invalid_input (fun _ => Except.ok "hello")
    (some [1, 2, 3]) ⟨0, by decide⟩ (Or.inr (Or.inr rfl))

/-- Claim C2: under the discipline that every owned string returned non-null
is destroyed by exactly one call to the release function of its own family
(`free_string` for the app-detection family, `free_ocr_string` for the OCR
family), no string is released twice and none is leaked. -/
theorem lifecycle_discipline_sound (t : List Bridge.Event)
    (hd : lifecycleDiscipline t) : noDoubleRelease t ∧ noLeak t := by
  constructor
  · intro h
    by_cases hc : Event.create h ∈ t
    · have hone := hd (Event.create h) hc
      simp only [eventOk, Bool.and_eq_true, decide_eq_true_eq] at hone
      exact le_of_eq hone.1
    · have hzero : releasesOf h t = 0 := by
        rw [releasesOf, List.countP_eq_zero]
        intro e he
        cases e with
        | create h2 => simp [isReleaseOf]
        | release h2 rf =>
          simp only [isReleaseOf, decide_eq_true_eq]
          intro heq
          subst heq
          have hmem := hd (Event.release h2 rf) he
          simp only [eventOk, decide_eq_true_eq] at hmem
          exact hc hmem
      omega
  · intro h hc
    have hone := hd (Event.create h) hc
    simp only [eventOk, Bool.and_eq_true, decide_eq_true_eq] at hone
    exact le_of_eq hone.1.symm

/-- Witness for C2: the trace that creates one app-family owned string and
releases it once with `free_string` satisfies the discipline, so it has no
double release and no leak. -/
theorem lifecycle_discipline_sound_witness :
    lifecycleDiscipline exampleTrace ∧
      (noDoubleRelease exampleTrace ∧ noLeak exampleTrace) :=
  ⟨by unfold lifecycleDiscipline; decide,
   lifecycle_discipline_sound exampleTrace (by unfold lifecycleDiscipline; decide)⟩

/-- Claim C3: for every invocation of each of the four query operations the
result is either a non-null owned value or null, and every provider-specific
failure collapses to the same null result — no error code, message or
exception crosses the boundary. -/
theorem boundary_error_taxonomy_binary (w : World) :
    ((∃ s, get_frontmost_app_bundle_id w = some s) ∨
      get_frontmost_app_bundle_id w = none) ∧
    ((∃ s, get_frontmost_app_name w = some s) ∨
      get_frontmost_app_name w = none) ∧
    ((∃ j, get_installed_applications_json w = some j) ∨
      get_installed_applications_json w = none) ∧
    (∀ (data : Option (List Nat)) (len : CInt),
      (∃ s, extract_text_from_image w.ocrEngine data len = some s) ∨
        extract_text_from_image w.ocrEngine data len = none) ∧
    (∀ f g : ProviderFailure,
      collapseOutcome (Except.error f : Except ProviderFailure String) = none ∧
      collapseOutcome (Except.error f : Except ProviderFailure String) =
        collapseOutcome (Except.error g : Except ProviderFailure String)) := by
  refine ⟨?_, ?_, ?_, ?_, ?_⟩
  · cases h : get_frontmost_app_bundle_id w with
    | none => exact Or.inr rfl
    | some s => exact Or.inl ⟨s, rfl⟩
  · cases h : get_frontmost_app_name w with
    | none => exact Or.inr rfl
    | some s => exact Or.inl ⟨s, rfl⟩
  · cases h : get_installed_applications_json w with
    | none => exact Or.inr rfl
    | some j => exact Or.inl ⟨j, rfl⟩
  · intro data len
    cases h : extract_text_from_image w.ocrEngine data len with
    | none => exact Or.inr rfl
    | some s => exact Or.inl ⟨s, rfl⟩
  · intro f g
    exact ⟨rfl, rfl⟩

/-- Claim C4: whenever `get_installed_applications_json` returns a non-null
string, it is a JSON array in which every element is an object whose
`bundle_id` field is a non-empty string (the `name` field may be absent). -/
theorem installed_applications_json_wellformed (w : World) (j : Json)
    (h : get_installed_applications_json w = some j) :
    ∃ elems : List Json, j = Json.arr elems ∧
      ∀ e ∈ elems, ∃ (fields : List (String × Json)) (b : String),
        e = Json.obj fields ∧
        fields.lookup "bundle_id" = some (Json.str b) ∧ b ≠ "" := by
  cases hw : w.enumOutcome with
  | error f =>
    rw [get_installed_applications_json, hw] at h
    exact absurd h (by simp [Except.map, collapseOutcome])
  | ok apps =>
    rw [get_installed_applications_json, hw] at h
    simp only [Except.map, collapseOutcome, Option.some.injEq] at h
    subst h
    refine ⟨apps.filterMap recordJson, rfl, ?_⟩
    intro e he
    rw [List.mem_filterMap] at he
    obtain ⟨a, _, ha⟩ := he
    unfold recordJson at ha
    split at ha
    · exact absurd ha (by simp)
    · rename_i b hb
      split at ha
      · exact absurd ha (by simp)
      · rename_i hbe
        rw [Option.some.injEq] at ha
        subst ha
        exact ⟨_, b, rfl, by simp [List.lookup], hbe⟩

/-- Witness for C4: a concrete world whose enumeration yields one application
record; the returned JSON is an array of objects with non-empty bundle
identifiers. -/
theorem installed_applications_json_wellformed_witness :
    get_installed_applications_json exampleWorld =
      some (Json.arr [Json.obj [("bundle_id", Json.str "com.example.editor"),
        ("name", Json.str "Editor")]]) ∧
    (∃ elems : List Json,
      Json.arr [Json.obj [("bundle_id", Json.str "com.example.editor"),
        ("name", Json.str "Editor")]] = Json.arr elems ∧
      ∀ e ∈ elems, ∃ (fields : List (String × Json)) (b : String),
        e = Json.obj fields ∧
        fields.lookup "bundle_id" = some (Json.str b) ∧ b ≠ "") :=
  ⟨rfl, installed_applications_json_wellformed exampleWorld _ rfl⟩

/-- Claim C5: calling `free_string` with a null pointer and calling
`free_ocr_string` with a null pointer are both no-ops: the bridge state is
returned unchanged (and the total functions cannot crash). -/
theorem free_null_is_noop (s : BridgeState) :
    free_string s none = s ∧ free_ocr_string s none = s :=
  ⟨rfl, rfl⟩

/-- Claim C6: `callFrontmostBundleId` returns the bundle identifier of the
application currently holding input focus (null when no such application can
be determined, transient failures included), leaves the external world
unchanged, and its only effect on the bridge state is allocating the returned
owned string (no allocation when the result is null). -/
theorem frontmost_bundle_id_contract (w : World) (s : BridgeState) :
    (callFrontmostBundleId w s).1 = Option.map AppInfo.bundleId w.focusedApp ∧
    (callFrontmostBundleId w s).2.1 = w ∧
    ((callFrontmostBundleId w s).1 = none ∧ (callFrontmostBundleId w s).2.2 = s ∨
      (callFrontmostBundleId w s).1 ≠ none ∧
        (callFrontmostBundleId w s).2.2 = (allocString s Family.app).2) := by
  cases hf : w.focusedApp with
  | none =>
    simp [callFrontmostBundleId, get_frontmost_app_bundle_id, detectOutcome,
      hf, Except.map, collapseOutcome]
  | some a =>
    simp [callFrontmostBundleId, get_frontmost_app_bundle_id, detectOutcome,
      hf, Except.map, collapseOutcome]

/-- Claim C7: `get_frontmost_app_bundle_id` is deterministic with respect to
the external focus state — two calls made while the externally focused
application is unchanged return the same identifier, whatever else differs
between the two worlds. -/
theorem frontmost_bundle_id_deterministic (w1 w2 : World)
    (h : w1.focusedApp = w2.focusedApp) :
    get_frontmost_app_bundle_id w1 = get_frontmost_app_bundle_id w2 := by
  unfold get_frontmost_app_bundle_id detectOutcome
  rw [h]

/-- Witness for C7: two concrete worlds sharing the focused application but
differing in enumeration outcome and OCR engine yield the same bundle
identifier. -/
theorem frontmost_bundle_id_deterministic_witness :
    exampleWorld.focusedApp = exampleWorld2.focusedApp ∧
    get_frontmost_app_bundle_id exampleWorld =
      get_frontmost_app_bundle_id exampleWorld2 :=
  ⟨rfl, frontmost_bundle_id_deterministic exampleWorld exampleWorld2 rfl⟩

/-- Claim C8: during every call to `extract_text_from_image` the caller-owned
image buffer is only read — the caller's memory is unchanged after the call —
and the provider retains no reference to it after returning. -/
theorem extract_text_frame_effect (w : World) (mem : CallerMemory)
    (ptrNull : Bool) (len : CInt) (s : BridgeState) :
    (callExtractText w mem ptrNull len s).2.1 = mem ∧
    (callExtractText w mem ptrNull len s).2.2.retained = s.retained := by
  unfold callExtractText
  cases h : extract_text_from_image w.ocrEngine
      (if ptrNull then none else some mem.buffer) len with
  | none => exact ⟨rfl, rfl⟩
  | some str => exact ⟨rfl, rfl⟩

/-- Counterexample for C9: the boundary surface declared by the two headers
does not consist of exactly four functions. -/
theorem boundary_surface_not_four : ¬ boundaryDecls.length = 4 := by
  decide

/-- Claim C9 (amended): the boundary surface declared by the two headers
consists of exactly six functions — the four query operations plus the two
release operations. -/
theorem boundary_surface_six_functions :
    boundaryDecls.length = 6 ∧
    boundaryDecls.Perm (queryDecls ++ releaseDecls) ∧
    queryDecls.length = 4 ∧ releaseDecls.length = 2 := by
  refine ⟨rfl, ?_, rfl, rfl⟩
  decide

/-- Claim C10: the `image_length` parameter of `extract_text_from_image` is a
signed 32-bit C `int`: every representable length is at most 2^31 - 1 (longer
buffers cannot be described at the boundary) and negative lengths are
representable and can be passed. -/
theorem image_length_is_signed_32bit :
    (∀ v : CInt, v.val ≤ 2147483647) ∧
    (¬ ∃ v : CInt, v.val = 2147483648) ∧
    (∃ v : CInt, v.val < 0) := by
  refine ⟨?_, ?_, ⟨⟨-1, by decide⟩, by decide⟩⟩
  · intro v
    have := v.2.2
    omega
  · rintro ⟨v, hv⟩
    have := v.2.2
    omega

end Bridge
